import Mathlib

/-!
Verification of the RBF kernel family of `GPy/kern/src/rbf.py`
(classes `RBF`, `RBFKernelKernel`, `RBFDistanceBuilderKernelKernel`).

The Python code is shallowly embedded: the pure kernel math (`K_of_r`,
`dK_dr`, `dK2_drdr`, `dK2_drdr_diag`) becomes real-valued functions, the
hyperparameter bookkeeping becomes explicit state passing on a record
type, matrices become lists of lists over a division ring (so that
witnesses can be evaluated at rational instances), and the fallible
distance-builder paths return `Except` values tagged with the Python
exception class that would be raised.
-/

namespace GPyRBF

/-! ## RadialKernelCore: the pure kernel math of class `RBF` -/

/-- `RBF.K_of_r`: `self.variance * np.exp(-0.5 * r ** 2)`. -/
noncomputable def K_of_r (variance r : ℝ) : ℝ :=
  variance * Real.exp (-0.5 * r ^ 2)

/-- `RBF.dK_dr`: `-r * self.K_of_r(r)`. -/
noncomputable def dK_dr (variance r : ℝ) : ℝ :=
  -r * K_of_r variance r

/-- `RBF.dK2_drdr`: `(r ** 2 - 1) * self.K_of_r(r)`. -/
noncomputable def dK2_drdr (variance r : ℝ) : ℝ :=
  (r ^ 2 - 1) * K_of_r variance r

/-- `RBF.dK2_drdr_diag`: `-self.variance` (the diagonal of r is always zero). -/
noncomputable def dK2_drdr_diag (variance : ℝ) : ℝ :=
  -variance

/-- Claim C1: for every finite non-negative `r` and positive `variance`,
`K_of_r r = variance * exp(-0.5 * r^2)`, `dK_dr r = -r * K_of_r r`, and
`dK2_drdr r = (r^2 - 1) * K_of_r r`; all three are pure functions of `r`
and the variance hyperparameter. -/
theorem K_of_r_dK_dr_dK2_drdr_formulas (variance r : ℝ)
    (_hr : 0 ≤ r) (_hv : 0 < variance) :
    K_of_r variance r = variance * Real.exp (-0.5 * r ^ 2) ∧
    dK_dr variance r = -r * K_of_r variance r ∧
    dK2_drdr variance r = (r ^ 2 - 1) * K_of_r variance r := by
  exact ⟨rfl, rfl, rfl⟩

/-- Witness for C1 at `variance = 1`, `r = 0`. -/
theorem K_of_r_dK_dr_dK2_drdr_formulas_witness :
    (0 : ℝ) ≤ 0 ∧ (0 : ℝ) < 1 ∧
    (K_of_r 1 0 = 1 * Real.exp (-0.5 * (0 : ℝ) ^ 2) ∧
     dK_dr 1 0 = -(0 : ℝ) * K_of_r 1 0 ∧
     dK2_drdr 1 0 = ((0 : ℝ) ^ 2 - 1) * K_of_r 1 0) :=
  ⟨le_refl 0, one_pos, K_of_r_dK_dr_dK2_drdr_formulas 1 0 (le_refl 0) one_pos⟩

/-- Claim C8: for positive variance, the diagonal-only second derivative
`dK2_drdr_diag` equals `-variance`, and it agrees with the general
off-diagonal formula `dK2_drdr` evaluated at `r = 0`. -/
theorem dK2_drdr_diag_eq_neg_variance_and_limit (variance : ℝ)
    (_hv : 0 < variance) :
    dK2_drdr_diag variance = -variance ∧
    dK2_drdr variance 0 = dK2_drdr_diag variance := by
  refine ⟨rfl, ?_⟩
  simp [dK2_drdr, dK2_drdr_diag, K_of_r]

/-- Witness for C8 at `variance = 1`. -/
theorem dK2_drdr_diag_eq_neg_variance_and_limit_witness :
    (0 : ℝ) < 1 ∧
    (dK2_drdr_diag 1 = -(1 : ℝ) ∧ dK2_drdr 1 0 = dK2_drdr_diag 1) :=
  ⟨one_pos, dK2_drdr_diag_eq_neg_variance_and_limit 1 one_pos⟩

/-! ## Hyperparameter state of class `RBF` (inverse-lengthscale reparameterization) -/

/-- The hyperparameter state of an `RBF` kernel: the constructor arguments
`input_dim`, `variance`, `lengthscale`, `ARD`, `name`, the
`use_invLengthscale` flag, and the `inv_l` parameter (only linked, hence
only meaningful, when the flag is set). -/
structure RBFState where
  input_dim : ℕ
  variance : ℝ
  lengthscale : ℝ
  ARD : Bool
  name : String
  use_invLengthscale : Bool
  inv_l : ℝ

/-- `RBF.__init__` (hyperparameter part): stores variance and lengthscale and,
when `inv_l=True`, unlinks the lengthscale parameter and links
`inv_l = 1. / self.lengthscale ** 2` in its place. -/
noncomputable def RBF.init (input_dim : ℕ) (variance lengthscale : ℝ)
    (ARD : Bool) (name : String) (inv_l_flag : Bool) : RBFState :=
  { input_dim := input_dim, variance := variance, lengthscale := lengthscale,
    ARD := ARD, name := name, use_invLengthscale := inv_l_flag,
    inv_l := if inv_l_flag then 1 / lengthscale ^ 2 else 0 }

/-- The optimizer assigning a new value to the `inv_l` parameter in place. -/
def setInvL (s : RBFState) (v : ℝ) : RBFState :=
  { s with inv_l := v }

/-- `RBF.parameters_changed`: `if self.use_invLengthscale:
self.lengthscale[:] = 1. / np.sqrt(self.inv_l + 1e-200)`. -/
noncomputable def parameters_changed (s : RBFState) : RBFState :=
  if s.use_invLengthscale then
    { s with lengthscale := 1 / Real.sqrt (s.inv_l + 1e-200) }
  else s

/-- Claim C3: with `inv_l=True`, after assigning a positive `v` to `inv_l` and
running the parameter-sync step, the lengthscale equals
`1 / sqrt(v + 1e-200)` (and is therefore bounded above by `1 / sqrt v`);
at construction `inv_l` is initialized to `1 / lengthscale ^ 2`. -/
theorem inv_l_sync_lengthscale (input_dim : ℕ) (variance lengthscale v : ℝ)
    (ARD : Bool) (name : String) (hv : 0 < v) :
    (parameters_changed
        (setInvL (RBF.init input_dim variance lengthscale ARD name true) v)).lengthscale
      = 1 / Real.sqrt (v + 1e-200) ∧
    (parameters_changed
        (setInvL (RBF.init input_dim variance lengthscale ARD name true) v)).lengthscale
      ≤ 1 / Real.sqrt v ∧
    (RBF.init input_dim variance lengthscale ARD name true).inv_l
      = 1 / lengthscale ^ 2 := by
  refine ⟨by simp [parameters_changed, setInvL, RBF.init], ?_, by simp [RBF.init]⟩
  have h1 : (parameters_changed
      (setInvL (RBF.init input_dim variance lengthscale ARD name true) v)).lengthscale
      = 1 / Real.sqrt (v + 1e-200) := by
    simp [parameters_changed, setInvL, RBF.init]
  rw [h1]
  have hsv : 0 < Real.sqrt v := Real.sqrt_pos.mpr hv
  have hle : Real.sqrt v ≤ Real.sqrt (v + 1e-200) := by
    apply Real.sqrt_le_sqrt
    have : (0 : ℝ) ≤ 1e-200 := by norm_num
    linarith
  exact one_div_le_one_div_of_le hsv hle

/-- Witness for C3 at `v = 1`, `lengthscale = 1`. -/
theorem inv_l_sync_lengthscale_witness :
    (0 : ℝ) < 1 ∧
    ((parameters_changed (setInvL (RBF.init 1 1 1 false "rbf" true) 1)).lengthscale
        = 1 / Real.sqrt (1 + 1e-200) ∧
     (parameters_changed (setInvL (RBF.init 1 1 1 false "rbf" true) 1)).lengthscale
        ≤ 1 / Real.sqrt 1 ∧
     (RBF.init 1 1 1 false "rbf" true).inv_l = 1 / (1 : ℝ) ^ 2) :=
  ⟨one_pos, inv_l_sync_lengthscale 1 1 1 1 false "rbf" one_pos⟩

/-! ## Gradient accumulation (C4) -/

/-- The gradient slots touched by `update_gradients_full` /
`update_gradients_diag`, together with the state they read. -/
structure GradState where
  lengthscale : ℝ
  use_invLengthscale : Bool
  variance_gradient : ℝ
  lengthscale_gradient : ℝ
  inv_l_gradient : ℝ

/-- Modelled from the spec: the base-class gradient step
(`Stationary.update_gradients_full` / `update_gradients_diag`;
`stationary.py` is not among the sources) accumulates the upstream
contributions `dL/dvariance` and `dL/dlengthscale` additively into the
variance and lengthscale gradient slots. -/
def Stationary.update_gradients (dL_dvariance dL_dlengthscale : ℝ)
    (s : GradState) : GradState :=
  { s with variance_gradient := s.variance_gradient + dL_dvariance,
           lengthscale_gradient := s.lengthscale_gradient + dL_dlengthscale }

/-- `RBF.update_gradients_full`: run the base-class step, then if
`use_invLengthscale` overwrite
`self.inv_l.gradient = self.lengthscale.gradient * (self.lengthscale ** 3 / -2.)`. -/
noncomputable def RBF.update_gradients_full (dL_dvariance dL_dlengthscale : ℝ)
    (s : GradState) : GradState :=
  let s1 := Stationary.update_gradients dL_dvariance dL_dlengthscale s
  if s1.use_invLengthscale then
    { s1 with inv_l_gradient := s1.lengthscale_gradient * (s1.lengthscale ^ 3 / -2) }
  else s1

/-- `RBF.update_gradients_diag`: identical composition shape to
`update_gradients_full` (base-class step, then conditional overwrite of the
`inv_l` gradient slot). -/
noncomputable def RBF.update_gradients_diag (dL_dKdiag_contrib_var dL_dKdiag_contrib_l : ℝ)
    (s : GradState) : GradState :=
  let s1 := Stationary.update_gradients dL_dKdiag_contrib_var dL_dKdiag_contrib_l s
  if s1.use_invLengthscale then
    { s1 with inv_l_gradient := s1.lengthscale_gradient * (s1.lengthscale ^ 3 / -2) }
  else s1

/-- Claim C4: with inverse-lengthscale mode active, after
`update_gradients_full` or `update_gradients_diag` the `inv_l` gradient slot
equals the base-accumulated lengthscale gradient times `lengthscale^3 / -2`,
independent of the slot's previous contents. -/
theorem update_gradients_inv_l_overwrite (dv dl g : ℝ) (s : GradState)
    (h : s.use_invLengthscale = true) :
    (RBF.update_gradients_full dv dl s).inv_l_gradient
      = (Stationary.update_gradients dv dl s).lengthscale_gradient
          * (s.lengthscale ^ 3 / -2) ∧
    (RBF.update_gradients_diag dv dl s).inv_l_gradient
      = (Stationary.update_gradients dv dl s).lengthscale_gradient
          * (s.lengthscale ^ 3 / -2) ∧
    (RBF.update_gradients_full dv dl { s with inv_l_gradient := g }).inv_l_gradient
      = (RBF.update_gradients_full dv dl s).inv_l_gradient ∧
    (RBF.update_gradients_diag dv dl { s with inv_l_gradient := g }).inv_l_gradient
      = (RBF.update_gradients_diag dv dl s).inv_l_gradient := by
  refine ⟨?_, ?_, ?_, ?_⟩ <;>
    simp [RBF.update_gradients_full, RBF.update_gradients_diag,
      Stationary.update_gradients, h]

/-- Witness for C4 at a concrete gradient state with stale `inv_l` slot 99. -/
theorem update_gradients_inv_l_overwrite_witness :
    (({ lengthscale := 2, use_invLengthscale := true, variance_gradient := 0,
        lengthscale_gradient := 3, inv_l_gradient := 99 } : GradState).use_invLengthscale
      = true) ∧
    ((RBF.update_gradients_full 1 5
        { lengthscale := 2, use_invLengthscale := true, variance_gradient := 0,
          lengthscale_gradient := 3, inv_l_gradient := 99 }).inv_l_gradient
      = (Stationary.update_gradients 1 5
          { lengthscale := 2, use_invLengthscale := true, variance_gradient := 0,
            lengthscale_gradient := 3, inv_l_gradient := 99 }).lengthscale_gradient
          * ((2 : ℝ) ^ 3 / -2) ∧
     (RBF.update_gradients_diag 1 5
        { lengthscale := 2, use_invLengthscale := true, variance_gradient := 0,
          lengthscale_gradient := 3, inv_l_gradient := 99 }).inv_l_gradient
      = (Stationary.update_gradients 1 5
          { lengthscale := 2, use_invLengthscale := true, variance_gradient := 0,
            lengthscale_gradient := 3, inv_l_gradient := 99 }).lengthscale_gradient
          * ((2 : ℝ) ^ 3 / -2) ∧
     (RBF.update_gradients_full 1 5
        { lengthscale := 2, use_invLengthscale := true, variance_gradient := 0,
          lengthscale_gradient := 3, inv_l_gradient := 0 }).inv_l_gradient
      = (RBF.update_gradients_full 1 5
          { lengthscale := 2, use_invLengthscale := true, variance_gradient := 0,
            lengthscale_gradient := 3, inv_l_gradient := 99 }).inv_l_gradient ∧
     (RBF.update_gradients_diag 1 5
        { lengthscale := 2, use_invLengthscale := true, variance_gradient := 0,
          lengthscale_gradient := 3, inv_l_gradient := 0 }).inv_l_gradient
      = (RBF.update_gradients_diag 1 5
          { lengthscale := 2, use_invLengthscale := true, variance_gradient := 0,
            lengthscale_gradient := 3, inv_l_gradient := 99 }).inv_l_gradient) :=
  ⟨rfl, update_gradients_inv_l_overwrite 1 5 0
    { lengthscale := 2, use_invLengthscale := true, variance_gradient := 0,
      lengthscale_gradient := 3, inv_l_gradient := 99 } rfl⟩

/-! ## Pickling state (`__getstate__`, C10) -/

/-- The psi-statistics computer selected at construction:
`PSICOMP_RBF` (CPU) or `PSICOMP_RBF_GPU`. -/
inductive PsiComp where
  | cpuRBF
  | gpuRBF
  deriving DecidableEq

/-- The pickling dictionary returned by the parent `__getstate__`: the
`useGPU` flag, the `psicomp` entry, and all remaining entries (`rest`). -/
structure PickleDict (α : Type) where
  useGPU : Bool
  psicomp : PsiComp
  rest : α

/-- `RBF.__getstate__`: take the parent state and, when `self.useGPU`,
set `dc['psicomp'] = PSICOMP_RBF()` and `dc['useGPU'] = False`; otherwise
return the parent state unmodified. -/
def RBF.getstate {α : Type} (dc : PickleDict α) : PickleDict α :=
  if dc.useGPU then { dc with psicomp := PsiComp.cpuRBF, useGPU := false }
  else dc

/-- Claim C10: for a GPU kernel the pickling state has `useGPU = False` and
the CPU psi-computer, with every other entry unchanged; for a CPU kernel the
parent state is returned unmodified. -/
theorem getstate_gpu_to_cpu {α : Type} (dc : PickleDict α) :
    (dc.useGPU = true →
      (RBF.getstate dc).useGPU = false ∧
      (RBF.getstate dc).psicomp = PsiComp.cpuRBF ∧
      (RBF.getstate dc).rest = dc.rest) ∧
    (dc.useGPU = false → RBF.getstate dc = dc) := by
  constructor
  · intro h
    simp [RBF.getstate, h]
  · intro h
    simp [RBF.getstate, h]

/-- Witness for C10: a GPU pickle dict and a CPU pickle dict over `ℕ` rest. -/
theorem getstate_gpu_to_cpu_witness :
    ((RBF.getstate ⟨true, PsiComp.gpuRBF, (42 : ℕ)⟩).useGPU = false ∧
     (RBF.getstate ⟨true, PsiComp.gpuRBF, (42 : ℕ)⟩).psicomp = PsiComp.cpuRBF ∧
     (RBF.getstate ⟨true, PsiComp.gpuRBF, (42 : ℕ)⟩).rest = 42) ∧
    RBF.getstate ⟨false, PsiComp.cpuRBF, (7 : ℕ)⟩ = ⟨false, PsiComp.cpuRBF, 7⟩ :=
  ⟨(getstate_gpu_to_cpu ⟨true, PsiComp.gpuRBF, (42 : ℕ)⟩).1 rfl,
   (getstate_gpu_to_cpu ⟨false, PsiComp.cpuRBF, (7 : ℕ)⟩).2 rfl⟩

/-! ## Distance computation of the two kernel-kernel variants (C2, C5, C6) -/

/-- Elementwise division of a matrix by a scalar: numpy `r / self.lengthscale`
with a scalar lengthscale. -/
def matDivScalar {α : Type} [Div α] (m : List (List α)) (c : α) : List (List α) :=
  m.map (fun row => row.map (fun x => x / c))

/-- `RBFKernelKernel._unscaled_dist`:
`cdist(X, X2, self.dist_metric, **self.dm_kwargs_dict)` with `X2 = X` when
`X2 is None`; `cdist` (external scipy collaborator) applies the configured
metric to every pair of rows of `X` and `X2`. -/
def RBFKernelKernel.unscaled_dist {α β : Type} (metric : List β → List β → α)
    (X : List (List β)) (X2 : Option (List (List β))) : List (List α) :=
  let X2v := X2.getD X
  X.map (fun x => X2v.map (fun y => metric x y))

/-- `RBFKernelKernel._scaled_dist`: both the `self.ARD` branch and the
`else` branch return `self._unscaled_dist(X, X2) / self.lengthscale`. -/
def RBFKernelKernel.scaled_dist {α β : Type} [Div α]
    (metric : List β → List β → α) (ARD : Bool) (lengthscale : α)
    (X : List (List β)) (X2 : Option (List (List β))) : List (List α) :=
  if ARD then matDivScalar (RBFKernelKernel.unscaled_dist metric X X2) lengthscale
  else matDivScalar (RBFKernelKernel.unscaled_dist metric X X2) lengthscale

/-- `RBFDistanceBuilderKernelKernel._unscaled_dist` (total version, for
in-range indices): `X2 = X` when `X2 is None`, the table is
`self.distance_builder.get_kernel(self.n_models)`, and the result is the
numpy fancy-indexing submatrix `r[X.flatten()][:, X2.flatten()]`. -/
def RBFDistanceBuilderKernelKernel.unscaled_dist {α : Type} [Inhabited α]
    (table : List (List α)) (X : List ℕ) (X2 : Option (List ℕ)) :
    List (List α) :=
  let X2v := X2.getD X
  X.map (fun i => X2v.map (fun j => (table.getD i []).getD j default))

/-- `RBFDistanceBuilderKernelKernel._scaled_dist`: both the `self.ARD` branch
and the `else` branch return `self._unscaled_dist(X, X2) / self.lengthscale`. -/
def RBFDistanceBuilderKernelKernel.scaled_dist {α : Type} [Inhabited α] [Div α]
    (table : List (List α)) (ARD : Bool) (lengthscale : α)
    (X : List ℕ) (X2 : Option (List ℕ)) : List (List α) :=
  if ARD then
    matDivScalar (RBFDistanceBuilderKernelKernel.unscaled_dist table X X2) lengthscale
  else
    matDivScalar (RBFDistanceBuilderKernelKernel.unscaled_dist table X X2) lengthscale

/-- Claim C2: in both kernel-kernel variants, `_scaled_dist(X, X2)` equals
`_unscaled_dist(X, X2)` divided elementwise by the scalar lengthscale, for
every value of the ARD flag; in particular the ARD branch and the non-ARD
branch coincide (per-dimension lengthscaling is never applied). -/
theorem scaled_dist_ignores_ARD {α β : Type} [Inhabited α] [Div α]
    (metric : List β → List β → α) (table : List (List α))
    (ARD : Bool) (lengthscale : α)
    (X : List (List β)) (X2 : Option (List (List β)))
    (Xi : List ℕ) (X2i : Option (List ℕ)) :
    RBFKernelKernel.scaled_dist metric ARD lengthscale X X2
      = matDivScalar (RBFKernelKernel.unscaled_dist metric X X2) lengthscale ∧
    RBFKernelKernel.scaled_dist metric true lengthscale X X2
      = RBFKernelKernel.scaled_dist metric false lengthscale X X2 ∧
    RBFDistanceBuilderKernelKernel.scaled_dist table ARD lengthscale Xi X2i
      = matDivScalar (RBFDistanceBuilderKernelKernel.unscaled_dist table Xi X2i)
          lengthscale ∧
    RBFDistanceBuilderKernelKernel.scaled_dist table true lengthscale Xi X2i
      = RBFDistanceBuilderKernelKernel.scaled_dist table false lengthscale Xi X2i := by
  cases ARD <;>
    simp [RBFKernelKernel.scaled_dist, RBFDistanceBuilderKernelKernel.scaled_dist]

/-- `getD` over a mapped list at an in-range position. -/
theorem getD_map_of_lt {α β : Type} (f : α → β) (l : List α) (i : ℕ)
    (hi : i < l.length) (d : β) (d0 : α) :
    (l.map f).getD i d = f (l.getD i d0) := by
  have h1 : (l.map f).getD i d = ((l.map f)[i]?).getD d := List.getD_eq_getElem?_getD _ _ _
  have h2 : l.getD i d0 = (l[i]?).getD d0 := List.getD_eq_getElem?_getD _ _ _
  rw [h1, h2, List.getElem?_map, List.getElem?_eq_getElem hi]
  rfl

/-- Claim C5: the distance-builder `_unscaled_dist(X, X2)` is exactly the
lookup submatrix — its `(i, j)` entry is `table[X[i]][X2[j]]` for in-range
row positions — and in both variants `X2 = None` defaults to `X`. -/
theorem unscaled_dist_submatrix {α β : Type} [Inhabited α]
    (metric : List β → List β → α) (Y : List (List β))
    (table : List (List α)) (X X2 : List ℕ) (i j : ℕ)
    (hi : i < X.length) (hj : j < X2.length) :
    ((RBFDistanceBuilderKernelKernel.unscaled_dist table X (some X2)).getD i []).getD
        j default
      = (table.getD (X.getD i 0) []).getD (X2.getD j 0) default ∧
    RBFDistanceBuilderKernelKernel.unscaled_dist table X none
      = RBFDistanceBuilderKernelKernel.unscaled_dist table X (some X) ∧
    RBFKernelKernel.unscaled_dist metric Y none
      = RBFKernelKernel.unscaled_dist metric Y (some Y) := by
  refine ⟨?_, rfl, rfl⟩
  unfold RBFDistanceBuilderKernelKernel.unscaled_dist
  rw [getD_map_of_lt _ X i hi [] 0]
  simp only [Option.getD_some]
  rw [getD_map_of_lt _ X2 j hj default 0]

/-- Witness for C5: the spec's 4-model example, indices `[0,2]` against
`[1,3]`, entry `(0, 1)` of the submatrix is `table[0][3]`. -/
theorem unscaled_dist_submatrix_witness :
    (0 : ℕ) < 2 ∧ (1 : ℕ) < 2 ∧
    (((RBFDistanceBuilderKernelKernel.unscaled_dist
          ([[0, 1, 2, 3], [1, 0, 4, 5], [2, 4, 0, 6], [3, 5, 6, 0]] : List (List ℚ))
          [0, 2] (some [1, 3])).getD 0 []).getD 1 default
        = ((([[0, 1, 2, 3], [1, 0, 4, 5], [2, 4, 0, 6], [3, 5, 6, 0]] :
              List (List ℚ)).getD (([0, 2] : List ℕ).getD 0 0) []).getD
            (([1, 3] : List ℕ).getD 1 0) default) ∧
      RBFDistanceBuilderKernelKernel.unscaled_dist
          ([[0, 1, 2, 3], [1, 0, 4, 5], [2, 4, 0, 6], [3, 5, 6, 0]] : List (List ℚ))
          [0, 2] none
        = RBFDistanceBuilderKernelKernel.unscaled_dist
            ([[0, 1, 2, 3], [1, 0, 4, 5], [2, 4, 0, 6], [3, 5, 6, 0]] : List (List ℚ))
            [0, 2] (some [0, 2]) ∧
      RBFKernelKernel.unscaled_dist (fun (x y : List ℚ) => x.headD 0 - y.headD 0)
          [[0], [1]] none
        = RBFKernelKernel.unscaled_dist (fun (x y : List ℚ) => x.headD 0 - y.headD 0)
            [[0], [1]] (some [[0], [1]])) :=
  ⟨by decide, by decide,
   unscaled_dist_submatrix (fun (x y : List ℚ) => x.headD 0 - y.headD 0)
     [[0], [1]]
     ([[0, 1, 2, 3], [1, 0, 4, 5], [2, 4, 0, 6], [3, 5, 6, 0]] : List (List ℚ))
     [0, 2] [1, 3] 0 1 (by decide) (by decide)⟩

/-! ## Failure semantics of the distance-builder variant (C6) -/

/-- The Python exception classes the distance-builder variant can raise:
`AssertionError` (from a failed `assert`) and `IndexError` (from numpy
fancy indexing with an out-of-range index). The two are distinct classes;
neither is a subclass of the other. -/
inductive PyExc where
  | assertionError
  | indexError
  deriving DecidableEq

/-- A list-of-lists matrix is a square 2-D array
(`r.ndim == 2 and r.shape[0] == r.shape[1]`): every row has length equal to
the number of rows. -/
def isSquare {α : Type} (t : List (List α)) : Bool :=
  t.all (fun row => row.length == t.length)

/-- `RBFDistanceBuilderKernelKernel.__init__`: runs `assert input_dim == 1`
at construction time, raising `AssertionError` when it fails; otherwise the
kernel is constructed with the given `input_dim` and `n_models`. -/
def RBFDistanceBuilderKernelKernel.initChecked (input_dim n_models : ℕ) :
    Except PyExc (ℕ × ℕ) :=
  if input_dim = 1 then Except.ok (input_dim, n_models)
  else Except.error PyExc.assertionError

/-- `RBFDistanceBuilderKernelKernel._unscaled_dist`, fallible version:
`assert r.ndim == 2 and r.shape[0] == r.shape[1]` raises `AssertionError`
for a non-square table; the numpy fancy indexing
`r[X.flatten().astype(np.int)][:, X2.flatten().astype(np.int)]` raises
`IndexError` when a model index is out of range; otherwise the submatrix is
returned and no error is raised. -/
def RBFDistanceBuilderKernelKernel.unscaledDistChecked {α : Type} [Inhabited α]
    (table : List (List α)) (X : List ℕ) (X2 : Option (List ℕ)) :
    Except PyExc (List (List α)) :=
  let X2v := X2.getD X
  if isSquare table then
    if (X ++ X2v).all (fun i => decide (i < table.length)) then
      Except.ok (RBFDistanceBuilderKernelKernel.unscaled_dist table X X2)
    else Except.error PyExc.indexError
  else Except.error PyExc.assertionError

/-- Counterexample to C6 as stated: on the non-square table `[[0, 1]]` the
code raises `AssertionError`, which is not an IndexError-class condition. -/
theorem unscaledDistChecked_nonsquare_counterexample :
    RBFDistanceBuilderKernelKernel.unscaledDistChecked
        ([[0, 1]] : List (List ℚ)) [0] none
      = Except.error PyExc.assertionError ∧
    PyExc.assertionError ≠ PyExc.indexError :=
  ⟨rfl, by decide⟩

/-- Claim C6 (amended): construction with `input_dim ≠ 1` fails at
construction time; `_unscaled_dist` raises `AssertionError` when the table
is not a square 2-D matrix, raises `IndexError` when the table is square
but a model index is out of range, and returns the submatrix with no error
for a square table and in-range indices. -/
theorem distance_builder_failure_semantics {α : Type} [Inhabited α]
    (input_dim n_models : ℕ) (table : List (List α)) (X : List ℕ)
    (X2 : Option (List ℕ)) :
    (input_dim ≠ 1 →
      RBFDistanceBuilderKernelKernel.initChecked input_dim n_models
        = Except.error PyExc.assertionError) ∧
    (input_dim = 1 →
      RBFDistanceBuilderKernelKernel.initChecked input_dim n_models
        = Except.ok (input_dim, n_models)) ∧
    (isSquare table = false →
      RBFDistanceBuilderKernelKernel.unscaledDistChecked table X X2
        = Except.error PyExc.assertionError) ∧
    (isSquare table = true →
      (X ++ X2.getD X).all (fun i => decide (i < table.length)) = false →
      RBFDistanceBuilderKernelKernel.unscaledDistChecked table X X2
        = Except.error PyExc.indexError) ∧
    (isSquare table = true →
      (X ++ X2.getD X).all (fun i => decide (i < table.length)) = true →
      RBFDistanceBuilderKernelKernel.unscaledDistChecked table X X2
        = Except.ok (RBFDistanceBuilderKernelKernel.unscaled_dist table X X2)) := by
  refine ⟨?_, ?_, ?_, ?_, ?_⟩
  · intro h
    simp [RBFDistanceBuilderKernelKernel.initChecked, h]
  · intro h
    simp [RBFDistanceBuilderKernelKernel.initChecked, h]
  · intro h
    simp [RBFDistanceBuilderKernelKernel.unscaledDistChecked, h]
  · intro h1 h2
    simp [RBFDistanceBuilderKernelKernel.unscaledDistChecked, h1, h2]
  · intro h1 h2
    simp [RBFDistanceBuilderKernelKernel.unscaledDistChecked, h1, h2]

/-- Witness for the amended C6: `input_dim = 5` fails at construction; on the
square table `[[0, 1], [1, 0]]` the out-of-range index 5 raises `IndexError`
while in-range indices succeed. -/
theorem distance_builder_failure_semantics_witness :
    RBFDistanceBuilderKernelKernel.initChecked 5 4
      = Except.error PyExc.assertionError ∧
    RBFDistanceBuilderKernelKernel.unscaledDistChecked
        ([[0, 1], [1, 0]] : List (List ℚ)) [0, 5] none
      = Except.error PyExc.indexError ∧
    RBFDistanceBuilderKernelKernel.unscaledDistChecked
        ([[0, 1], [1, 0]] : List (List ℚ)) [0, 1] (some [1])
      = Except.ok [[1], [0]] := by
  have h5 := distance_builder_failure_semantics (α := ℚ) 5 4 [[0, 1], [1, 0]]
    [0, 5] none
  have h1 := distance_builder_failure_semantics (α := ℚ) 1 4 [[0, 1], [1, 0]]
    [0, 1] (some [1])
  refine ⟨h5.1 (by decide), h5.2.2.2.1 (by decide) (by decide), ?_⟩
  rw [h1.2.2.2.2 (by decide) (by decide)]
  rfl

/-! ## Serialization (`to_dict`, C7) -/

/-- The serialization dictionary: the base-class fields written by
`_save_to_input_dict` plus the `class` and `inv_l` keys written by the
concrete `to_dict` (the `class` key is held in `klass` because `class` is a
keyword). -/
structure InputDict where
  klass : String
  input_dim : ℕ
  variance : ℝ
  lengthscale : ℝ
  ARD : Bool
  name : String
  inv_l : Bool

/-- Modelled from the spec: `_save_to_input_dict` (the parent serializer;
the base classes are not among the sources) contributes the input
dimension, variance, raw lengthscale, ARD flag and name; the `class` and
`inv_l` keys are filled in afterwards by the concrete `to_dict`. -/
noncomputable def save_to_input_dict (s : RBFState) : InputDict :=
  { klass := "", input_dim := s.input_dim, variance := s.variance,
    lengthscale := s.lengthscale, ARD := s.ARD, name := s.name,
    inv_l := false }

/-- The three concrete kernel variants of the file. -/
inductive VariantTag where
  | rbf
  | rbfKernelKernel
  | rbfDistanceBuilderKernelKernel
  deriving DecidableEq

/-- The fixed `class` string each variant writes into its dictionary. -/
def className : VariantTag → String
  | VariantTag.rbf => "GPy.kern.RBF"
  | VariantTag.rbfKernelKernel => "GPy.kern.RBFKernelKernel"
  | VariantTag.rbfDistanceBuilderKernelKernel =>
      "GPy.kern.RBFDistanceBuilderKernelKernel"

/-- `to_dict` of each variant: parent `_save_to_input_dict`, then
`input_dict["class"]`, `input_dict["inv_l"] = self.use_invLengthscale`, and
when `inv_l` is true `input_dict["lengthscale"] = np.sqrt(1 / float(self.inv_l))`. -/
noncomputable def to_dict (tag : VariantTag) (s : RBFState) : InputDict :=
  let d := save_to_input_dict s
  let d := { d with klass := className tag, inv_l := s.use_invLengthscale }
  if s.use_invLengthscale then
    { d with lengthscale := Real.sqrt (1 / s.inv_l) }
  else d

/-- Modelled from the spec: reconstructing a kernel from its dictionary
calls the constructor with the recorded fields — the serialized lengthscale
and the recorded `inv_l` boolean (the constructor then re-derives the
`inv_l` parameter as `1 / lengthscale ** 2`). -/
noncomputable def from_dict (d : InputDict) : RBFState :=
  RBF.init d.input_dim d.variance d.lengthscale d.ARD d.name d.inv_l

/-- Claim C7: each variant's `to_dict` records the fixed `class` string, the
`inv_l` boolean and — in inverse-lengthscale mode — `sqrt(1 / inv_l)` as the
lengthscale; reconstructing from the dictionary reproduces an equivalent
kernel (same input_dim, variance, ARD, name, mode, and the same `inv_l`
hence the same effective lengthscale). -/
theorem to_dict_keys_and_roundtrip (tag : VariantTag) (s : RBFState)
    (h : 0 < s.inv_l) :
    (to_dict tag s).klass = className tag ∧
    (to_dict tag s).inv_l = s.use_invLengthscale ∧
    (s.use_invLengthscale = true →
      (to_dict tag s).lengthscale = Real.sqrt (1 / s.inv_l)) ∧
    (s.use_invLengthscale = false →
      (to_dict tag s).lengthscale = s.lengthscale) ∧
    (from_dict (to_dict tag s)).input_dim = s.input_dim ∧
    (from_dict (to_dict tag s)).variance = s.variance ∧
    (from_dict (to_dict tag s)).ARD = s.ARD ∧
    (from_dict (to_dict tag s)).name = s.name ∧
    (from_dict (to_dict tag s)).use_invLengthscale = s.use_invLengthscale ∧
    (s.use_invLengthscale = true →
      (from_dict (to_dict tag s)).inv_l = s.inv_l) ∧
    (s.use_invLengthscale = false →
      (from_dict (to_dict tag s)).lengthscale = s.lengthscale) := by
  cases hu : s.use_invLengthscale
  · refine ⟨?_, ?_, ?_, ?_, ?_, ?_, ?_, ?_, ?_, ?_, ?_⟩ <;>
      simp [to_dict, save_to_input_dict, from_dict, RBF.init, hu]
  · refine ⟨?_, ?_, ?_, ?_, ?_, ?_, ?_, ?_, ?_, ?_, ?_⟩ <;>
      simp [to_dict, save_to_input_dict, from_dict, RBF.init, hu]
    exact Real.sq_sqrt h.le

/-- Witness for C7: the RBF variant in inverse-lengthscale mode with
`inv_l = 4`. -/
theorem to_dict_keys_and_roundtrip_witness :
    (0 : ℝ) < 4 ∧
    ((to_dict VariantTag.rbf
        { input_dim := 1, variance := 2, lengthscale := 1, ARD := false,
          name := "rbf", use_invLengthscale := true, inv_l := 4 }).klass
      = className VariantTag.rbf ∧
     (to_dict VariantTag.rbf
        { input_dim := 1, variance := 2, lengthscale := 1, ARD := false,
          name := "rbf", use_invLengthscale := true, inv_l := 4 }).inv_l
      = true ∧
     (true = true →
      (to_dict VariantTag.rbf
        { input_dim := 1, variance := 2, lengthscale := 1, ARD := false,
          name := "rbf", use_invLengthscale := true, inv_l := 4 }).lengthscale
        = Real.sqrt (1 / 4)) ∧
     (true = false →
      (to_dict VariantTag.rbf
        { input_dim := 1, variance := 2, lengthscale := 1, ARD := false,
          name := "rbf", use_invLengthscale := true, inv_l := 4 }).lengthscale
        = 1) ∧
     (from_dict (to_dict VariantTag.rbf
        { input_dim := 1, variance := 2, lengthscale := 1, ARD := false,
          name := "rbf", use_invLengthscale := true, inv_l := 4 })).input_dim
      = 1 ∧
     (from_dict (to_dict VariantTag.rbf
        { input_dim := 1, variance := 2, lengthscale := 1, ARD := false,
          name := "rbf", use_invLengthscale := true, inv_l := 4 })).variance
      = 2 ∧
     (from_dict (to_dict VariantTag.rbf
        { input_dim := 1, variance := 2, lengthscale := 1, ARD := false,
          name := "rbf", use_invLengthscale := true, inv_l := 4 })).ARD
      = false ∧
     (from_dict (to_dict VariantTag.rbf
        { input_dim := 1, variance := 2, lengthscale := 1, ARD := false,
          name := "rbf", use_invLengthscale := true, inv_l := 4 })).name
      = "rbf" ∧
     (from_dict (to_dict VariantTag.rbf
        { input_dim := 1, variance := 2, lengthscale := 1, ARD := false,
          name := "rbf", use_invLengthscale := true,
          inv_l := 4 })).use_invLengthscale
      = true ∧
     (true = true →
      (from_dict (to_dict VariantTag.rbf
        { input_dim := 1, variance := 2, lengthscale := 1, ARD := false,
          name := "rbf", use_invLengthscale := true, inv_l := 4 })).inv_l
        = 4) ∧
     (true = false →
      (from_dict (to_dict VariantTag.rbf
        { input_dim := 1, variance := 2, lengthscale := 1, ARD := false,
          name := "rbf", use_invLengthscale := true, inv_l := 4 })).lengthscale
        = 1)) :=
  ⟨zero_lt_four, to_dict_keys_and_roundtrip VariantTag.rbf
    { input_dim := 1, variance := 2, lengthscale := 1, ARD := false,
      name := "rbf", use_invLengthscale := true, inv_l := 4 } zero_lt_four⟩

/-! ## Caching of `_scaled_dist` (C9) -/

/-- A cache state is valid for `compute` at the current lengthscale when
every stored value is what recomputation at its key would produce. -/
def CacheValid {κ α : Type} (compute : ℝ → κ → α) (lengthscale : ℝ)
    (cache : List (κ × α)) : Prop :=
  ∀ p ∈ cache, p.2 = compute lengthscale p.1

/-- Modelled from the spec: the `@Cache_this(limit=3, ignore_args=())`
decorator on `_scaled_dist` (the caching decorator belongs to the external
`paramz` collaborator) memoizes up to 3 results keyed by the `(X, X2)`
argument pair: a hit returns the stored result without recomputation, a
miss computes the result, stores it and evicts the oldest entry beyond the
limit; the cache is reset whenever the underlying parameters (the
lengthscale) change. -/
def cachedScaledDist {κ α : Type} [DecidableEq κ]
    (compute : ℝ → κ → α) (lengthscale : ℝ) (cache : List (κ × α))
    (k : κ) : α × List (κ × α) :=
  match cache.find? (fun p => decide (p.1 = k)) with
  | some p => (p.2, cache)
  | none =>
      let v := compute lengthscale k
      (v, ((k, v) :: cache).take 3)

/-- Claim C9: caching is observationally transparent — with a valid cache,
a (possibly cached) call returns exactly the uncached recomputation and
leaves the cache valid; and after a lengthscale change resets the cache,
the next call returns the value computed with the new lengthscale, never a
stale one. -/
theorem cachedScaledDist_transparent {κ α : Type} [DecidableEq κ]
    (compute : ℝ → κ → α) (lengthscale newLengthscale : ℝ)
    (cache : List (κ × α)) (k : κ)
    (h : CacheValid compute lengthscale cache) :
    (cachedScaledDist compute lengthscale cache k).1 = compute lengthscale k ∧
    CacheValid compute lengthscale (cachedScaledDist compute lengthscale cache k).2 ∧
    (cachedScaledDist compute newLengthscale [] k).1
      = compute newLengthscale k := by
  refine ⟨?_, ?_, ?_⟩
  · unfold cachedScaledDist
    cases hf : cache.find? (fun p => decide (p.1 = k)) with
    | none => rfl
    | some p =>
        have hmem : p ∈ cache := List.mem_of_find?_eq_some hf
        have hpred := List.find?_some hf
        have hk : p.1 = k := by simpa using hpred
        simpa [hk] using h p hmem
  · unfold cachedScaledDist
    cases hf : cache.find? (fun p => decide (p.1 = k)) with
    | none =>
        intro q hq
        have hq2 : q ∈ (k, compute lengthscale k) :: cache :=
          List.mem_of_mem_take hq
        rcases List.mem_cons.mp hq2 with h1 | h2
        · rw [h1]
        · exact h q h2
    | some p => exact h
  · unfold cachedScaledDist
    simp

/-- Witness for C9: `compute := fun _ k => k + 1` over natural keys, empty
cache, key 5. -/
theorem cachedScaledDist_transparent_witness :
    CacheValid (fun (_ : ℝ) (k : ℕ) => k + 1) 1 [] ∧
    ((cachedScaledDist (fun (_ : ℝ) (k : ℕ) => k + 1) 1 [] 5).1 = 5 + 1 ∧
     CacheValid (fun (_ : ℝ) (k : ℕ) => k + 1) 1
       (cachedScaledDist (fun (_ : ℝ) (k : ℕ) => k + 1) 1 [] 5).2 ∧
     (cachedScaledDist (fun (_ : ℝ) (k : ℕ) => k + 1) 2 [] 5).1 = 5 + 1) :=
  ⟨fun p hp => absurd hp (List.not_mem_nil p),
   cachedScaledDist_transparent (fun (_ : ℝ) (k : ℕ) => k + 1) 1 2 [] 5
     (fun p hp => absurd hp (List.not_mem_nil p))⟩

end GPyRBF
